import Mathlib

/-!
# Verification of "The Film Room" backend against its specification

Shallow embedding of the relevant parts of the Python backend
(`src/backend/src`) of the coaching platform "The Film Room".

Conventions of the embedding:
* datetimes are modelled as integer epoch seconds (`Int`); `datetime.utcnow()`
  becomes an explicit `now : Int` parameter;
* a Python string is a Lean `String`; `str.split(sep)` is modelled as
  `List.splitOn` on the character list (identical semantics for a one-character
  separator, including the behaviour on the empty string);
* SQLAlchemy rows become Lean structures, nullable columns become `Option`;
  the database table touched by a handler becomes an explicit `List` of rows
  (or a single row when the handler loads exactly one row by its key), and a
  handler is a pure function from the request data and the pre-state to an
  `Except` of the error kind and the post-state;
* external side effects that a handler merely fires (e-mail, S3 presigning,
  egress start) are modelled as explicit function parameters or are dropped
  when no claim depends on them;
* Python `int(x)` on a nonnegative float truncates, which is made explicit in
  `pyTruncMinutes`.
-/

/-- The five session statuses of `src/models/session.py` (`SessionStatus`). -/
inductive SessionStatus where
  | scheduled
  | inProgress
  | completed
  | cancelled
  | noShow
deriving DecidableEq, Repr

/-- The four invitation statuses of `src/models/invitation.py` (`InvitationStatus`). -/
inductive InvitationStatus where
  | pending
  | accepted
  | expired
  | cancelled
deriving DecidableEq, Repr

/-- The three user roles of `src/models/user.py` (`UserRole`). -/
inductive UserRole where
  | coach
  | client
  | admin
deriving DecidableEq, Repr

/-- The error kinds raised by the API handlers (`HTTPException` status codes). -/
inductive ApiError where
  | notFound       -- 404
  | badRequest     -- 400 (validation / conflict)
  | forbidden      -- 403
  | unauthorized   -- 401
  | internal       -- 500 (uncaught exception reaching the global handler)
deriving DecidableEq, Repr

/-- A row of the `sessions` table (`src/models/session.py`, class `Session`);
nullable columns are `Option`, JSON payloads are kept as opaque strings. -/
structure SessionRec where
  id : String
  title : String
  description : Option String
  scheduledAt : Int
  durationMinutes : Int
  status : SessionStatus
  roomName : Option String
  roomSid : Option String
  recordingUrl : Option String
  recordingS3Key : Option String
  recordingEgressId : Option String
  recordingStatus : Option String
  recordingDurationSeconds : Option Int
  recordingSizeBytes : Option Int
  recordingStartedAt : Option Int
  recordingCompletedAt : Option Int
  externalPlatform : Option String
  externalRecordingUrl : Option String
  s3UploadKey : Option String
  s3UploadStatus : Option String
  s3UploadCompletedAt : Option Int
  transcript : Option String
  transcriptStatus : Option String
  analysis : Option String
  analysisStatus : Option String
  coachId : String
  clientId : String
  startedAt : Option Int
  endedAt : Option Int
  actualDurationMinutes : Option Int
  createdAt : Int
  updatedAt : Int
deriving DecidableEq, Repr

/-- Python `int(delta.total_seconds() / 60)`: the number of whole seconds
divided by 60 and truncated toward zero, as in `sessions.py` and
`webhooks.py`. -/
def pyTruncMinutes (secs : Int) : Int :=
  if 0 ≤ secs then ((secs.toNat / 60 : Nat) : Int)
  else -(((-secs).toNat / 60 : Nat) : Int)

/-- Written from the spec sentence, for comparison with the code: the spec says
`actual_duration_minutes` is `round((ended_at − started_at) in minutes)`,
i.e. the duration in minutes rounded to the nearest integer (Python `round`,
ties to even). -/
def specRoundMinutes (secs : Int) : Int :=
  let q := secs / 60
  let r := secs % 60
  if r < 30 then q
  else if 30 < r then q + 1
  else if q % 2 = 0 then q else q + 1

/-- The participant token issued by `LiveKitService.generate_token`
(`src/services/livekit.py`): claims of the signed JWT. -/
structure LiveKitToken where
  roomName : Option String
  participantName : String
  participantIdentity : String
  canPublish : Bool
  canSubscribe : Bool
  canPublishData : Bool
deriving DecidableEq, Repr

/-- The body of `POST /{id}/join`'s response (`SessionJoinResponse`,
`src/api/sessions.py` lines 64-68): `room_name` is declared `str`, not
optional, so constructing the response for a session whose `room_name`
column is NULL fails pydantic validation (a 500 to the caller). -/
structure JoinResponse where
  sessionId : String
  roomName : String
  token : LiveKitToken
  url : String
deriving DecidableEq, Repr

/-- The body of `PATCH /{id}` (`UpdateSessionRequest` in `sessions.py`). -/
structure UpdateSessionRequest where
  title : Option String
  description : Option String
  scheduledAt : Option Int
  durationMinutes : Option Int
  status : Option SessionStatus
deriving DecidableEq, Repr

/-- `LiveKitService.generate_token` as called from `join_session`:
all three capability flags are passed `True`. -/
def generateJoinToken (s : SessionRec) (userId fullName : String) : LiveKitToken :=
  { roomName := s.roomName
    participantName := fullName
    participantIdentity := userId
    canPublish := true
    canSubscribe := true
    canPublishData := true }

/-- Python `str.replace` on character lists (left-to-right, non-overlapping),
with explicit fuel so that it is structurally recursive; the fuel
`s.length + 1` is enough because every step consumes at least one character
of `s` when the pattern is nonempty (the only way it is used here). -/
def pyReplaceAux (pat rep : List Char) : Nat → List Char → List Char
  | 0, s => s
  | Nat.succ n, s =>
    match s with
    | [] => []
    | c :: cs =>
      if pat ≠ [] ∧ pat.isPrefixOf (c :: cs) then
        rep ++ pyReplaceAux pat rep n ((c :: cs).drop pat.length)
      else
        c :: pyReplaceAux pat rep n cs

/-- Python `s.replace(pat, rep)` for a nonempty pattern. -/
def pyReplace (s pat rep : String) : String :=
  ⟨pyReplaceAux pat.data rep.data (s.data.length + 1) s.data⟩

/-- Python `s.startswith(pre)`. -/
def pyStartsWith (s pre : String) : Bool :=
  pre.data.isPrefixOf s.data

/-- `settings.livekit_url.replace("ws://", "").replace("wss://", "")`. -/
def stripWsScheme (url : String) : String :=
  pyReplace (pyReplace url "ws://" "") "wss://" ""

/-- `POST /{session_id}/join` (`join_session`, `src/api/sessions.py` lines
248-308) restricted to the single session row the handler loads: visibility
check (caller is the coach or the client of the session, else 404), token
generation, the `scheduled → in_progress` start with `started_at` stamping
and its `db.commit()`, and only then the response construction — which
raises a pydantic `ValidationError` (a 500, after the commit) when
`room_name` is NULL, because `SessionJoinResponse.room_name` is `str`.
Returns the committed session row alongside the HTTP outcome. -/
def join_session (livekitUrl : String) (userId fullName : String) (now : Int)
    (s : SessionRec) : SessionRec × Except ApiError JoinResponse :=
  if userId = s.coachId ∨ userId = s.clientId then
    let token := generateJoinToken s userId fullName
    let s' := if s.status = SessionStatus.scheduled then
        { s with status := SessionStatus.inProgress, startedAt := some now }
      else s
    match s.roomName with
    | some rn =>
      (s', Except.ok { sessionId := s.id, roomName := rn, token := token,
                       url := stripWsScheme livekitUrl })
    | none => (s', Except.error ApiError.internal)
  else
    (s, Except.error ApiError.notFound)

/-- `PATCH /{session_id}` (`update_session`, `src/api/sessions.py` lines
311-375) on the single session row the handler loads: coach-only 404 guard,
field-by-field optional update, unconditional status assignment, and the
timing side effects of a requested `in_progress` / `completed` status. -/
def update_session (userId : String) (now : Int) (req : UpdateSessionRequest)
    (s : SessionRec) : Except ApiError SessionRec :=
  if s.coachId = userId then
    let s₁ := { s with
      title := req.title.getD s.title
      description := match req.description with
        | some d => some d
        | none => s.description
      scheduledAt := req.scheduledAt.getD s.scheduledAt
      durationMinutes := req.durationMinutes.getD s.durationMinutes }
    let s₂ := match req.status with
      | none => s₁
      | some st =>
        let s₁ := { s₁ with status := st }
        if st = SessionStatus.inProgress ∧ s.startedAt = none then
          { s₁ with startedAt := some now }
        else if st = SessionStatus.completed ∧ s.endedAt = none then
          match s.startedAt with
          | some t0 =>
            { s₁ with endedAt := some now,
                      actualDurationMinutes := some (pyTruncMinutes (now - t0)) }
          | none => { s₁ with endedAt := some now }
        else s₁
    Except.ok { s₂ with updatedAt := now }
  else
    Except.error ApiError.notFound

/-- `POST /{session_id}/end` (`end_session`, `src/api/sessions.py` lines
378-437) on the single session row the handler loads: visibility check,
`in_progress`-only guard, completion stamping and duration computation. -/
def end_session (userId : String) (now : Int) (s : SessionRec) :
    Except ApiError SessionRec :=
  if userId = s.coachId ∨ userId = s.clientId then
    if s.status = SessionStatus.inProgress then
      let s₁ := { s with status := SessionStatus.completed, endedAt := some now }
      let s₂ := match s.startedAt with
        | some t0 => { s₁ with actualDurationMinutes := some (pyTruncMinutes (now - t0)) }
        | none => s₁
      Except.ok { s₂ with updatedAt := now }
    else
      Except.error ApiError.badRequest
  else
    Except.error ApiError.notFound

/-- The `room_started` branch of `handle_room_webhook`
(`src/api/webhooks.py` lines 163-182) applied to the session row matched by
room name: stores the room sid, forces `in_progress`, stamps `started_at`,
and records the egress id / `"pending"` recording status when the
automatically triggered `RecordingService.start_recording` call returned a
result (`egressRes`). -/
def room_started_effect (now : Int) (sid : Option String)
    (egressRes : Option String) (s : SessionRec) : SessionRec :=
  let s₁ := { s with roomSid := sid, status := SessionStatus.inProgress,
                     startedAt := some now }
  match egressRes with
  | some eg => { s₁ with recordingEgressId := some eg,
                         recordingStatus := some "pending" }
  | none => s₁

/-- The `room_finished` branch of `handle_room_webhook`
(`src/api/webhooks.py` lines 184-200) applied to the session row matched by
room name: forces `completed`, stamps `ended_at`, and computes
`actual_duration_minutes` when `started_at` is set. -/
def room_finished_effect (now : Int) (s : SessionRec) : SessionRec :=
  let s₁ := { s with status := SessionStatus.completed, endedAt := some now }
  match s.startedAt with
  | some t0 => { s₁ with actualDurationMinutes := some (pyTruncMinutes (now - t0)) }
  | none => s₁

/-- The status transition relation stated by the spec ("State machine
(status)"): `scheduled → in_progress | cancelled | no_show`,
`in_progress → completed | no_show`, and no transition leaves `completed`,
`cancelled` or `no_show`. -/
def specAllowedTransition : SessionStatus → SessionStatus → Bool
  | SessionStatus.scheduled, SessionStatus.inProgress => true
  | SessionStatus.scheduled, SessionStatus.cancelled => true
  | SessionStatus.scheduled, SessionStatus.noShow => true
  | SessionStatus.inProgress, SessionStatus.completed => true
  | SessionStatus.inProgress, SessionStatus.noShow => true
  | _, _ => false

/-- A concrete session row used by witnesses and counterexamples. -/
def baseSession : SessionRec :=
  { id := "s1", title := "Kickoff", description := none, scheduledAt := 0,
    durationMinutes := 60, status := SessionStatus.scheduled,
    roomName := some "room1", roomSid := none,
    recordingUrl := none, recordingS3Key := none, recordingEgressId := none,
    recordingStatus := some "pending", recordingDurationSeconds := none,
    recordingSizeBytes := none, recordingStartedAt := none,
    recordingCompletedAt := none, externalPlatform := none,
    externalRecordingUrl := none, s3UploadKey := none,
    s3UploadStatus := some "pending", s3UploadCompletedAt := none,
    transcript := none, transcriptStatus := some "pending",
    analysis := none, analysisStatus := some "pending",
    coachId := "coach1", clientId := "client1",
    startedAt := none, endedAt := none, actualDurationMinutes := none,
    createdAt := 0, updatedAt := 0 }

/-- A `PATCH /{id}` body that only requests a status change. -/
def statusOnlyReq (st : SessionStatus) : UpdateSessionRequest :=
  { title := none, description := none, scheduledAt := none,
    durationMinutes := none, status := some st }

/-- C1 (counterexample): the claim that every status change of the session
operations follows the state machine is false: `PATCH /{id}` by the owning
coach on a `completed` session requesting `status = scheduled` succeeds and
sets the status back to `scheduled`, a transition the state machine forbids
(`completed` is supposed never to be left). -/
theorem update_session_leaves_completed :
    (update_session "coach1" 100 (statusOnlyReq SessionStatus.scheduled)
        { baseSession with status := SessionStatus.completed }).map (·.status)
      = Except.ok SessionStatus.scheduled ∧
    specAllowedTransition SessionStatus.completed SessionStatus.scheduled = false := by
  exact ⟨rfl, rfl⟩

/-- C1 (amended): the transitions the session operations actually perform:
`POST /join` either keeps the status or moves `scheduled → in_progress`;
`POST /end` succeeds only from `in_progress` and moves to `completed`;
`PATCH /{id}` sets the status to exactly the requested value (any value,
with no transition guard); and the room webhooks force `in_progress`
(`room_started`) and `completed` (`room_finished`) whatever the previous
status was.  Only join and end respect the spec's state machine. -/
theorem session_ops_status_transitions :
    (∀ url uid name now s,
        (join_session url uid name now s).1.status = s.status ∨
          (s.status = SessionStatus.scheduled ∧
           (join_session url uid name now s).1.status
             = SessionStatus.inProgress)) ∧
    (∀ uid now s s', end_session uid now s = Except.ok s' →
        s.status = SessionStatus.inProgress ∧
        s'.status = SessionStatus.completed) ∧
    (∀ uid now req s s', update_session uid now req s = Except.ok s' →
        s'.status = req.status.getD s.status) ∧
    (∀ now sid eg s,
        (room_started_effect now sid eg s).status = SessionStatus.inProgress) ∧
    (∀ now s, (room_finished_effect now s).status = SessionStatus.completed) := by
  refine ⟨?_, ?_, ?_, ?_, ?_⟩
  · intro url uid name now s
    rw [join_session]
    split
    · by_cases hs : s.status = SessionStatus.scheduled
      · cases hr : s.roomName <;> simp [hs, hr]
      · cases hr : s.roomName <;> simp [hs, hr]
    · exact Or.inl rfl
  · intro uid now s s' h
    rw [end_session] at h
    split at h
    · split at h
      · next hst =>
        refine ⟨hst, ?_⟩
        cases hs0 : s.startedAt <;> simp only [hs0] at h <;>
          { injection h with h; rw [← h] }
      · exact Except.noConfusion h
    · exact Except.noConfusion h
  · intro uid now req s s' h
    rw [update_session] at h
    split at h
    · simp only [Except.ok.injEq] at h
      subst h
      cases hrs : req.status with
      | none => simp
      | some st =>
        simp only [Option.getD_some]
        split
        · rfl
        · split
          · split <;> rfl
          · rfl
    · exact Except.noConfusion h
  · intro now sid eg s
    cases eg <;> rfl
  · intro now s
    cases hs : s.startedAt <;> simp [room_finished_effect, hs]

/-- The session row produced by joining `baseSession` at time 50. -/
def joinedBase : SessionRec :=
  { baseSession with status := SessionStatus.inProgress, startedAt := some 50 }

/-- The response produced by joining `baseSession` as its coach. -/
def joinRespBase : JoinResponse :=
  { sessionId := "s1", roomName := "room1",
    token := generateJoinToken baseSession "coach1" "Coach",
    url := "localhost:7880" }

/-- `baseSession` while running, as loaded by `POST /end`. -/
def runningBase : SessionRec :=
  { baseSession with status := SessionStatus.inProgress, startedAt := some 0 }

/-- The session row produced by ending `runningBase` at time 90. -/
def endedBase : SessionRec :=
  { baseSession with status := SessionStatus.completed, startedAt := some 0,
                     endedAt := some 90, actualDurationMinutes := some 1,
                     updatedAt := 90 }

/-- The session row produced by `PATCH` cancelling `baseSession` at time 100. -/
def cancelledBase : SessionRec :=
  { baseSession with status := SessionStatus.cancelled, updatedAt := 100 }

/-- C1 (witness for the amended theorem): each conjunct instantiated on
concrete inputs, discharging the hypotheses by evaluation. -/
theorem session_ops_status_transitions_witness :
    (join_session "ws://localhost:7880" "coach1" "Coach" 50 baseSession
        = (joinedBase, Except.ok joinRespBase) ∧
      ((join_session "ws://localhost:7880" "coach1" "Coach" 50
          baseSession).1.status = baseSession.status ∨
        (baseSession.status = SessionStatus.scheduled ∧
         (join_session "ws://localhost:7880" "coach1" "Coach" 50
            baseSession).1.status = SessionStatus.inProgress))) ∧
    (end_session "client1" 90 runningBase = Except.ok endedBase ∧
      (runningBase.status = SessionStatus.inProgress ∧
       endedBase.status = SessionStatus.completed)) ∧
    (update_session "coach1" 100 (statusOnlyReq SessionStatus.cancelled)
          baseSession = Except.ok cancelledBase ∧
      cancelledBase.status =
        (statusOnlyReq SessionStatus.cancelled).status.getD baseSession.status) ∧
    (room_started_effect 10 (some "sid1") (some "eg1")
        { baseSession with status := SessionStatus.completed }).status
      = SessionStatus.inProgress ∧
    (room_finished_effect 10
        { baseSession with status := SessionStatus.cancelled }).status
      = SessionStatus.completed := by
  have h := session_ops_status_transitions
  exact ⟨⟨rfl, h.1 "ws://localhost:7880" "coach1" "Coach" 50 baseSession⟩,
         ⟨rfl, h.2.1 "client1" 90 runningBase endedBase rfl⟩,
         ⟨rfl, h.2.2.1 "coach1" 100 (statusOnlyReq SessionStatus.cancelled)
              baseSession cancelledBase rfl⟩,
         h.2.2.2.1 10 (some "sid1") (some "eg1") _,
         h.2.2.2.2 10 _⟩

/-- The session row produced by ending `runningBase` at time 100. -/
def endedBase100 : SessionRec :=
  { baseSession with status := SessionStatus.completed, startedAt := some 0,
                     endedAt := some 100, actualDurationMinutes := some 1,
                     updatedAt := 100 }

/-- C2 (counterexample): a session started at 0 and ended at 100 seconds
(1 minute 40 seconds) gets `actual_duration_minutes = 1`, while the claimed
round-to-nearest value of 100 seconds is 2 minutes: the code truncates
(`int(delta.total_seconds() / 60)`), it does not round. -/
theorem end_session_duration_not_rounded :
    end_session "coach1" 100 runningBase = Except.ok endedBase100 ∧
    endedBase100.actualDurationMinutes ≠ some (specRoundMinutes (100 - 0)) ∧
    specRoundMinutes (100 - 0) = 2 ∧
    endedBase100.actualDurationMinutes = some (pyTruncMinutes (100 - 0)) := by
  exact ⟨rfl, by decide, by decide, by decide⟩

/-- C2 (amended): wherever both `started_at` and `ended_at` become set
(`POST /end`, a `PATCH` into `completed` with `ended_at` unset, the
`room_finished` webhook), `actual_duration_minutes` is set to
`int((ended_at − started_at).total_seconds() / 60)`, the minute value
truncated toward zero — equal to floor division by 60 for the nonnegative
durations that arise — not rounded to the nearest integer. -/
theorem actual_duration_is_truncation :
    (∀ uid now s s', end_session uid now s = Except.ok s' →
        s'.endedAt = some now ∧
        s'.actualDurationMinutes =
          match s.startedAt with
          | some t0 => some (pyTruncMinutes (now - t0))
          | none => s.actualDurationMinutes) ∧
    (∀ uid now req s s', req.status = some SessionStatus.completed →
        s.endedAt = none →
        update_session uid now req s = Except.ok s' →
        s'.endedAt = some now ∧
        s'.actualDurationMinutes =
          match s.startedAt with
          | some t0 => some (pyTruncMinutes (now - t0))
          | none => s.actualDurationMinutes) ∧
    (∀ now s, (room_finished_effect now s).endedAt = some now ∧
        (room_finished_effect now s).actualDurationMinutes =
          match s.startedAt with
          | some t0 => some (pyTruncMinutes (now - t0))
          | none => s.actualDurationMinutes) ∧
    (∀ secs : Int, 0 ≤ secs → pyTruncMinutes secs = secs / 60) := by
  refine ⟨?_, ?_, ?_, ?_⟩
  · intro uid now s s' h
    rw [end_session] at h
    split at h
    · split at h
      · cases hs0 : s.startedAt <;> simp only [hs0] at h <;>
          (injection h with h; subst h; exact ⟨rfl, rfl⟩)
      · exact Except.noConfusion h
    · exact Except.noConfusion h
  · intro uid now req s s' hst he h
    rw [update_session] at h
    split at h
    · simp only [hst, he] at h
      cases hs0 : s.startedAt <;> simp only [hs0] at h <;>
        (injection h with h; subst h; exact ⟨rfl, rfl⟩)
    · exact Except.noConfusion h
  · intro now s
    cases hs0 : s.startedAt <;> simp [room_finished_effect, hs0]
  · intro secs hs
    have h60 : (0 : Int) ≤ 60 := by norm_num
    rw [pyTruncMinutes, if_pos hs, Int.ofNat_tdiv, Int.toNat_of_nonneg hs]
    norm_num [Int.tdiv_eq_ediv hs h60]

/-- C2 (witness for the amended theorem): each conjunct instantiated on
concrete inputs, discharging the hypotheses by evaluation. -/
theorem actual_duration_is_truncation_witness :
    (end_session "coach1" 100 runningBase = Except.ok endedBase100 ∧
      (endedBase100.endedAt = some 100 ∧
       endedBase100.actualDurationMinutes =
         match runningBase.startedAt with
         | some t0 => some (pyTruncMinutes (100 - t0))
         | none => runningBase.actualDurationMinutes)) ∧
    ((statusOnlyReq SessionStatus.completed).status
        = some SessionStatus.completed ∧
      runningBase.endedAt = none ∧
      update_session "coach1" 100 (statusOnlyReq SessionStatus.completed)
          runningBase = Except.ok endedBase100 ∧
      (endedBase100.endedAt = some 100 ∧
       endedBase100.actualDurationMinutes =
         match runningBase.startedAt with
         | some t0 => some (pyTruncMinutes (100 - t0))
         | none => runningBase.actualDurationMinutes)) ∧
    ((room_finished_effect 90 runningBase).endedAt = some 90 ∧
      (room_finished_effect 90 runningBase).actualDurationMinutes =
        match runningBase.startedAt with
        | some t0 => some (pyTruncMinutes (90 - t0))
        | none => runningBase.actualDurationMinutes) ∧
    (0 ≤ (100 : Int) ∧ pyTruncMinutes 100 = 100 / 60) := by
  have h := actual_duration_is_truncation
  exact ⟨⟨rfl, h.1 "coach1" 100 runningBase endedBase100 rfl⟩,
         ⟨rfl, rfl, rfl,
          h.2.1 "coach1" 100 (statusOnlyReq SessionStatus.completed)
            runningBase endedBase100 rfl rfl rfl⟩,
         h.2.2.1 90 runningBase,
         ⟨by decide, h.2.2.2 100 (by decide)⟩⟩

/-- A session row without a LiveKit room: `POST /create-from-s3` and
`POST /upload` (`src/api/coach_sessions.py` lines 228-244 and 327-342)
create sessions that never set `room_name`, so NULL-room sessions are
reachable and visible to their coach. -/
def noRoomSession : SessionRec :=
  { baseSession with roomName := none }

/-- C3 (counterexample): the claim that a video-room token is returned in
every case is false: joining a visible session whose `room_name` is NULL
(as created by `POST /create-from-s3` / `POST /upload`) fails with a 500 —
`SessionJoinResponse.room_name` is declared `str`, so pydantic rejects the
response — and no token reaches the caller; the `scheduled → in_progress`
transition has moreover already been committed when the error is raised. -/
theorem join_session_null_room_no_token :
    ("coach1" = noRoomSession.coachId ∨ "coach1" = noRoomSession.clientId) ∧
    noRoomSession.status = SessionStatus.scheduled ∧
    join_session "ws://localhost:7880" "coach1" "Coach" 50 noRoomSession =
      ({ noRoomSession with status := SessionStatus.inProgress,
                            startedAt := some 50 },
       Except.error ApiError.internal) := by
  exact ⟨Or.inl rfl, rfl, rfl⟩

/-- C3 (amended): `POST /{id}/join` by a caller who is the session's coach
or client, on a session that has a room name: on a `scheduled` session it
transitions to `in_progress` and stamps `started_at` with the join time
(changing nothing else); on a session in any other status it leaves the row
exactly unchanged; and in both cases a LiveKit room token (full
publish/subscribe/data permissions) is returned.  On a visible session
whose `room_name` is NULL (reachable via `POST /create-from-s3` and
`POST /upload`), the handler instead fails with a 500 and returns no token,
after the `scheduled → in_progress` change has already been committed. -/
theorem join_session_behavior (url uid name : String) (now : Int)
    (s : SessionRec) (h : uid = s.coachId ∨ uid = s.clientId) :
    (∀ rn, s.roomName = some rn →
      (s.status = SessionStatus.scheduled →
        join_session url uid name now s =
          ({ s with status := SessionStatus.inProgress,
                    startedAt := some now },
           Except.ok { sessionId := s.id, roomName := rn,
                       token := generateJoinToken s uid name,
                       url := stripWsScheme url })) ∧
      (s.status ≠ SessionStatus.scheduled →
        join_session url uid name now s =
          (s, Except.ok { sessionId := s.id, roomName := rn,
                          token := generateJoinToken s uid name,
                          url := stripWsScheme url }))) ∧
    (s.roomName = none →
      join_session url uid name now s =
        ((if s.status = SessionStatus.scheduled then
            { s with status := SessionStatus.inProgress,
                     startedAt := some now }
          else s),
         Except.error ApiError.internal)) := by
  constructor
  · intro rn hroom
    constructor <;> intro hs <;> rw [join_session, if_pos h] <;>
      simp [hs, hroom]
  · intro hroom
    rw [join_session, if_pos h, hroom]

/-- C3 (witness for the amended theorem): the coach joins the scheduled
`baseSession` (status and `started_at` set, token returned); the client
joins `runningBase` (row unchanged, token still returned); the coach joins
the scheduled NULL-room session and gets the 500 with the transition
already committed. -/
theorem join_session_behavior_witness :
    (("coach1" = baseSession.coachId ∨ "coach1" = baseSession.clientId) ∧
      baseSession.roomName = some "room1" ∧
      join_session "ws://localhost:7880" "coach1" "Coach" 50 baseSession
        = (joinedBase, Except.ok joinRespBase)) ∧
    (("client1" = runningBase.coachId ∨ "client1" = runningBase.clientId) ∧
      join_session "ws://localhost:7880" "client1" "Client" 60 runningBase
        = (runningBase,
           Except.ok { sessionId := "s1", roomName := "room1",
                       token := generateJoinToken runningBase "client1" "Client",
                       url := "localhost:7880" })) ∧
    (("coach1" = noRoomSession.coachId ∨ "coach1" = noRoomSession.clientId) ∧
      noRoomSession.roomName = none ∧
      join_session "ws://localhost:7880" "coach1" "Coach" 50 noRoomSession
        = ({ noRoomSession with status := SessionStatus.inProgress,
                                startedAt := some 50 },
           Except.error ApiError.internal)) := by
  exact ⟨⟨Or.inl rfl, rfl,
          ((join_session_behavior "ws://localhost:7880" "coach1" "Coach" 50
              baseSession (Or.inl rfl)).1 "room1" rfl).1 rfl⟩,
         ⟨Or.inr rfl,
          ((join_session_behavior "ws://localhost:7880" "client1" "Client" 60
              runningBase (Or.inr rfl)).1 "room1" rfl).2 (by decide)⟩,
         ⟨Or.inl rfl, rfl,
          (join_session_behavior "ws://localhost:7880" "coach1" "Coach" 50
              noRoomSession (Or.inl rfl)).2 rfl⟩⟩

/-- A row of the `users` table (`src/models/user.py`, class `User`),
restricted to the columns the verified handlers read or write. -/
structure UserRec where
  id : String
  email : String
  hashedPassword : String
  fullName : String
  role : UserRole
  isActive : Bool
  isVerified : Bool
  lastLoginAt : Option Int
deriving DecidableEq, Repr

/-- A row of the `invitations` table (`src/models/invitation.py`,
class `Invitation`). -/
structure InvitationRec where
  id : String
  email : String
  token : String
  status : InvitationStatus
  firstName : Option String
  lastName : Option String
  message : Option String
  coachId : String
  clientId : Option String
  createdAt : Int
  expiresAt : Int
  acceptedAt : Option Int
deriving DecidableEq, Repr

/-- A row of the `coach_client_relationships` table
(`src/models/invitation.py`, class `CoachClientRelationship`), restricted to
the columns `invite_client` reads. -/
structure RelRec where
  id : String
  coachId : String
  clientId : String
  isActive : Bool
deriving DecidableEq, Repr

/-- The body of `POST /invite` (`InviteClientRequest`). -/
structure InviteRequest where
  email : String
  firstName : Option String
  lastName : Option String
  message : Option String
deriving DecidableEq, Repr

/-- The callable attributes exported by the Python 3 standard-library module
`secrets` (per the Python documentation); accessing any other attribute of
the module raises `AttributeError`. -/
def pySecretsModuleAttrs : List String :=
  ["SystemRandom", "choice", "randbelow", "randbits",
   "token_bytes", "token_hex", "token_urlsafe", "compare_digest"]

/-- The column default of `Invitation.token` (`src/models/invitation.py`
line 25): the lambda `secrets.urlsafe_token(32)`, evaluated when the row is
inserted.  It looks up the attribute `urlsafe_token` on the `secrets`
module; `entropy` stands for the random string the call would produce, and
`none` models the `AttributeError` raised when the attribute is missing. -/
def invitationTokenDefault (entropy : String) : Option String :=
  if "urlsafe_token" ∈ pySecretsModuleAttrs then some entropy else none

/-- `POST /invite` (`invite_client`, `src/api/invitations.py` lines 63-146):
coach-role guard, already-registered / already-connected guard, pending
unexpired-invitation guard, then insertion of the new `Invitation` row with
its column defaults (`status=pending`, `created_at=now`,
`expires_at = now + 7 days`, and the token default above).  `newId` stands
for the generated UUID and `entropy` for the randomness of the token. -/
def invite_client (now : Int) (newId entropy : String) (coach : UserRec)
    (req : InviteRequest) (users : List UserRec) (rels : List RelRec)
    (invs : List InvitationRec) : Except ApiError InvitationRec :=
  if coach.role = UserRole.coach then
    match users.find? (fun u => u.email == req.email) with
    | some u =>
      match rels.find? (fun r =>
          r.coachId == coach.id && r.clientId == u.id && r.isActive) with
      | some _ => Except.error ApiError.badRequest  -- already connected
      | none => Except.error ApiError.badRequest    -- already registered
    | none =>
      match invs.find? (fun i =>
          i.email == req.email && i.coachId == coach.id &&
          i.status == InvitationStatus.pending && decide (now < i.expiresAt)) with
      | some _ => Except.error ApiError.badRequest  -- invitation already pending
      | none =>
        match invitationTokenDefault entropy with
        | none => Except.error ApiError.internal    -- AttributeError at commit
        | some tok =>
          Except.ok { id := newId, email := req.email, token := tok,
                      status := InvitationStatus.pending,
                      firstName := req.firstName, lastName := req.lastName,
                      message := req.message, coachId := coach.id,
                      clientId := none, createdAt := now,
                      expiresAt := now + 7 * 86400, acceptedAt := none }
  else
    Except.error ApiError.forbidden

/-- C4: the claim is right about the intended behaviour but the code cannot
perform it: the `Invitation.token` column default calls
`secrets.urlsafe_token(32)`, yet the Python `secrets` module only exports
`token_urlsafe` — so inserting the invitation raises `AttributeError` and
every valid `POST /invite` fails with a 500 instead of creating the
pending invitation. -/
theorem invite_client_crashes_on_token_default (now : Int)
    (newId entropy : String) (coach : UserRec) (req : InviteRequest)
    (users : List UserRec) (rels : List RelRec) (invs : List InvitationRec)
    (hrole : coach.role = UserRole.coach)
    (hu : users.find? (fun u => u.email == req.email) = none)
    (hp : invs.find? (fun i =>
        i.email == req.email && i.coachId == coach.id &&
        i.status == InvitationStatus.pending && decide (now < i.expiresAt))
      = none) :
    invite_client now newId entropy coach req users rels invs
      = Except.error ApiError.internal ∧
    "token_urlsafe" ∈ pySecretsModuleAttrs ∧
    "urlsafe_token" ∉ pySecretsModuleAttrs := by
  refine ⟨?_, by decide, by decide⟩
  rw [invite_client, if_pos hrole, hu, hp]
  have hnone : invitationTokenDefault entropy = none := by
    rw [invitationTokenDefault, if_neg (by decide)]
  rw [hnone]

/-- A concrete coach account. -/
def coachUser : UserRec :=
  { id := "coach1", email := "coach@x.com",
    hashedPassword := "bcrypt$pw", fullName := "Coach One",
    role := UserRole.coach, isActive := true, isVerified := false,
    lastLoginAt := none }

/-- C4 (witness): a concrete valid invite request — no registered user and
no pending invitation for the address — still fails with the internal
error. -/
theorem invite_client_crashes_on_token_default_witness :
    coachUser.role = UserRole.coach ∧
    ([] : List UserRec).find?
        (fun u => u.email == ("new@x.com" : String)) = none ∧
    invite_client 0 "inv1" "r4nd0m" coachUser
        { email := "new@x.com", firstName := none, lastName := none,
          message := none } [] [] []
      = Except.error ApiError.internal := by
  refine ⟨rfl, rfl, ?_⟩
  exact (invite_client_crashes_on_token_default 0 "inv1" "r4nd0m" coachUser
    { email := "new@x.com", firstName := none, lastName := none,
      message := none } [] [] [] rfl rfl rfl).1

/-- A row of the `session_uploads` table (`src/models/session.py`,
class `SessionUpload`). -/
structure SessionUploadRec where
  id : String
  sessionId : String
  uploadType : String
  originalUrl : Option String
  s3Key : String
  fileSizeBytes : Option Int
  mimeType : Option String
  uploadStatus : String
  errorMessage : Option String
  uploadedByUserId : Option String
deriving DecidableEq, Repr

/-- `DELETE /recording/{session_id}` (`delete_recording`,
`src/api/recordings.py` lines 374-427) on the session row it loads and the
`session_uploads` table: coach-ownership 404 guard, best-effort S3 delete
(an external effect, dropped here), the exact list of session fields it
clears, and the bulk delete of the session's upload rows. -/
def delete_recording (userId : String) (s : SessionRec)
    (uploads : List SessionUploadRec) :
    Except ApiError (SessionRec × List SessionUploadRec) :=
  if s.coachId = userId then
    Except.ok
      ({ s with recordingUrl := none, recordingS3Key := none,
                s3UploadKey := none, s3UploadStatus := none,
                s3UploadCompletedAt := none, externalPlatform := none,
                externalRecordingUrl := none, recordingSizeBytes := none,
                recordingDurationSeconds := none, transcript := none,
                transcriptStatus := some "pending", analysis := none,
                analysisStatus := some "pending" },
       uploads.filter (fun u => u.sessionId != s.id))
  else
    Except.error ApiError.notFound

/-- A session row whose recording pipeline has fully run. -/
def recordedSession : SessionRec :=
  { baseSession with
    status := SessionStatus.completed,
    recordingUrl := some "https://s3/presigned", recordingS3Key := some "k1",
    recordingEgressId := some "eg9", recordingStatus := some "completed",
    recordingDurationSeconds := some 300, recordingSizeBytes := some 12345,
    recordingStartedAt := some 5, recordingCompletedAt := some 9,
    externalPlatform := some "zoom",
    externalRecordingUrl := some "https://zoom/rec",
    s3UploadKey := some "k1", s3UploadStatus := some "completed",
    s3UploadCompletedAt := some 9, transcript := some "hello",
    transcriptStatus := some "completed", analysis := some "js",
    analysisStatus := some "completed", startedAt := some 0,
    endedAt := some 100, actualDurationMinutes := some 1 }

/-- An upload-history row for `recordedSession`. -/
def recordedUpload : SessionUploadRec :=
  { id := "u1", sessionId := "s1", uploadType := "manual",
    originalUrl := none, s3Key := "k1", fileSizeBytes := some 12345,
    mimeType := some "video/mp4", uploadStatus := "completed",
    errorMessage := none, uploadedByUserId := some "coach1" }

/-- C6 (counterexample): the claim that `DELETE /recording/{session_id}`
resets *every* recording field to its default pending state is false: the
handler never touches `recording_status`, `recording_egress_id`,
`recording_started_at` or `recording_completed_at` (which keep their old
values), and it sets `s3_upload_status` to NULL rather than to its default
`'pending'`. -/
theorem delete_recording_leaves_recording_status :
    (delete_recording "coach1" recordedSession [recordedUpload]).map
        (fun p => (p.1.recordingStatus, p.1.recordingEgressId,
                   p.1.recordingStartedAt, p.1.recordingCompletedAt,
                   p.1.s3UploadStatus))
      = Except.ok (some "completed", some "eg9", some 5, some 9, none) ∧
    some "completed" ≠ some "pending" ∧
    (none : Option String) ≠ some "pending" := by
  exact ⟨rfl, by decide, by decide⟩

/-- C6 (amended): `DELETE /recording/{session_id}` by the owning coach
clears `recording_url`, `recording_s3_key`, `s3_upload_key`,
`s3_upload_completed_at`, `external_platform`, `external_recording_url`,
`recording_size_bytes`, `recording_duration_seconds` and `transcript` to
NULL, sets `s3_upload_status` to NULL (not to its default `'pending'`),
resets `transcript_status` and `analysis_status` to `'pending'` and
`analysis` to NULL, deletes every `SessionUpload` row of the session, and
leaves the scheduling fields (title, scheduled_at, coach id, client id) —
as well as `recording_status`, `recording_egress_id`,
`recording_started_at` and `recording_completed_at` — unchanged. -/
theorem delete_recording_effect (userId : String) (s : SessionRec)
    (uploads : List SessionUploadRec) (h : s.coachId = userId) :
    delete_recording userId s uploads =
      Except.ok
        ({ s with recordingUrl := none, recordingS3Key := none,
                  s3UploadKey := none, s3UploadStatus := none,
                  s3UploadCompletedAt := none, externalPlatform := none,
                  externalRecordingUrl := none, recordingSizeBytes := none,
                  recordingDurationSeconds := none, transcript := none,
                  transcriptStatus := some "pending", analysis := none,
                  analysisStatus := some "pending" },
         uploads.filter (fun u => u.sessionId != s.id)) ∧
    ∀ s' ups', delete_recording userId s uploads = Except.ok (s', ups') →
      s'.title = s.title ∧ s'.scheduledAt = s.scheduledAt ∧
      s'.coachId = s.coachId ∧ s'.clientId = s.clientId ∧
      s'.recordingStatus = s.recordingStatus ∧
      s'.recordingEgressId = s.recordingEgressId ∧
      s'.recordingStartedAt = s.recordingStartedAt ∧
      s'.recordingCompletedAt = s.recordingCompletedAt ∧
      s'.status = s.status ∧
      ups' = uploads.filter (fun u => u.sessionId != s.id) := by
  refine ⟨by rw [delete_recording, if_pos h], ?_⟩
  intro s' ups' hok
  rw [delete_recording, if_pos h] at hok
  simp only [Except.ok.injEq, Prod.mk.injEq] at hok
  obtain ⟨h1, h2⟩ := hok
  subst h1
  subst h2
  exact ⟨rfl, rfl, rfl, rfl, rfl, rfl, rfl, rfl, rfl, rfl⟩

/-- C6 (witness): the amended effect on the concrete recorded session. -/
theorem delete_recording_effect_witness :
    recordedSession.coachId = "coach1" ∧
    delete_recording "coach1" recordedSession [recordedUpload] =
      Except.ok
        ({ recordedSession with
             recordingUrl := none, recordingS3Key := none,
             s3UploadKey := none, s3UploadStatus := none,
             s3UploadCompletedAt := none, externalPlatform := none,
             externalRecordingUrl := none, recordingSizeBytes := none,
             recordingDurationSeconds := none, transcript := none,
             transcriptStatus := some "pending", analysis := none,
             analysisStatus := some "pending" },
         [recordedUpload].filter (fun u => u.sessionId != recordedSession.id)) := by
  exact ⟨rfl,
    (delete_recording_effect "coach1" recordedSession [recordedUpload] rfl).1⟩

/-- `POST /invitations/{invitation_id}/resend` (`resend_invitation`,
`src/api/invitations.py` lines 192-232) on the invitation row it loads:
ownership 404 guard, pending-only 400 guard, and the expiry refresh
`expires_at = now + 7 days` (the background e-mail re-send is an external
effect, dropped here). -/
def resend_invitation (userId : String) (now : Int) (inv : InvitationRec) :
    Except ApiError InvitationRec :=
  if inv.coachId = userId then
    if inv.status = InvitationStatus.pending then
      Except.ok { inv with expiresAt := now + 7 * 86400 }
    else
      Except.error ApiError.badRequest
  else
    Except.error ApiError.notFound

/-- C7: resending a pending invitation owned by the caller refreshes only
`expires_at` (to now + 7 days); token, email, status, names, message, coach
id and every other column are unchanged; resending a non-pending invitation
fails with the 400 validation error. -/
theorem resend_invitation_spec (userId : String) (now : Int)
    (inv : InvitationRec) (hown : inv.coachId = userId) :
    (inv.status = InvitationStatus.pending →
      resend_invitation userId now inv =
        Except.ok { inv with expiresAt := now + 7 * 86400 } ∧
      ∀ inv', resend_invitation userId now inv = Except.ok inv' →
        inv'.token = inv.token ∧ inv'.email = inv.email ∧
        inv'.status = inv.status ∧ inv'.firstName = inv.firstName ∧
        inv'.lastName = inv.lastName ∧ inv'.message = inv.message ∧
        inv'.coachId = inv.coachId ∧ inv'.id = inv.id ∧
        inv'.createdAt = inv.createdAt ∧ inv'.clientId = inv.clientId ∧
        inv'.acceptedAt = inv.acceptedAt ∧
        inv'.expiresAt = now + 7 * 86400) ∧
    (inv.status ≠ InvitationStatus.pending →
      resend_invitation userId now inv = Except.error ApiError.badRequest) := by
  constructor
  · intro hpending
    refine ⟨by rw [resend_invitation, if_pos hown, if_pos hpending], ?_⟩
    intro inv' hok
    rw [resend_invitation, if_pos hown, if_pos hpending] at hok
    simp only [Except.ok.injEq] at hok
    subst hok
    exact ⟨rfl, rfl, rfl, rfl, rfl, rfl, rfl, rfl, rfl, rfl, rfl, rfl⟩
  · intro hnp
    rw [resend_invitation, if_pos hown, if_neg hnp]

/-- A concrete pending invitation owned by `coach1`. -/
def pendingInv : InvitationRec :=
  { id := "inv1", email := "new@x.com", token := "tok123",
    status := InvitationStatus.pending, firstName := none, lastName := none,
    message := none, coachId := "coach1", clientId := none,
    createdAt := 0, expiresAt := 604800, acceptedAt := none }

/-- C7 (witness): resending the concrete pending invitation at time 1000
refreshes its expiry; resending it once cancelled fails with 400. -/
theorem resend_invitation_spec_witness :
    pendingInv.coachId = "coach1" ∧
    resend_invitation "coach1" 1000 pendingInv =
      Except.ok { pendingInv with expiresAt := 1000 + 7 * 86400 } ∧
    resend_invitation "coach1" 1000
        { pendingInv with status := InvitationStatus.cancelled } =
      Except.error ApiError.badRequest := by
  exact ⟨rfl,
    ((resend_invitation_spec "coach1" 1000 pendingInv rfl).1 rfl).1,
    (resend_invitation_spec "coach1" 1000
        { pendingInv with status := InvitationStatus.cancelled } rfl).2
      (by decide)⟩

/-- `POST /forgot-password` (`forgot_password`, `src/api/auth.py` lines
268-283): the user lookup only feeds an internal log line; the handler
returns HTTP 200 with the same body in both branches. -/
def forgot_password (users : List UserRec) (email : String) : Nat × String :=
  match users.find? (fun u => u.email == email) with
  | some _ =>
      (200, "If the email exists, a password reset link has been sent")
  | none =>
      (200, "If the email exists, a password reset link has been sent")

/-- C9: the `/forgot-password` response (status and body) is identical for
every database state and every requested email, so in particular for a
registered and an unregistered address — the response reveals nothing about
whether the email exists. -/
theorem forgot_password_uniform_response :
    ∀ (users₁ users₂ : List UserRec) (email₁ email₂ : String),
      forgot_password users₁ email₁ = forgot_password users₂ email₂ ∧
      forgot_password users₁ email₁ =
        (200, "If the email exists, a password reset link has been sent") := by
  have h : ∀ us e, forgot_password us e =
      (200, "If the email exists, a password reset link has been sent") := by
    intro us e
    rw [forgot_password]
    cases us.find? (fun u => u.email == e) <;> rfl
  exact fun u₁ u₂ e₁ e₂ => ⟨(h u₁ e₁).trans (h u₂ e₂).symm, h u₁ e₁⟩

/-- Replace the first element satisfying `p` by its image under `f`
(the effect of mutating the row returned by `query(...).first()` and
committing). -/
def updateFirst (p : α → Bool) (f : α → α) : List α → List α
  | [] => []
  | a :: as => if p a then f a :: as else a :: updateFirst p f as

/-- If the first element satisfying `p` is `a` and `f` preserves `p`, then
after `updateFirst` the first element satisfying `p` is `f a`. -/
theorem updateFirst_find? (p : α → Bool) (f : α → α) (l : List α) (a : α)
    (h : l.find? p = some a) (hf : ∀ x, p (f x) = p x) :
    (updateFirst p f l).find? p = some (f a) := by
  induction l with
  | nil => simp [List.find?] at h
  | cons x xs ih =>
    by_cases hp : p x
    · rw [List.find?_cons_of_pos _ hp] at h
      injection h with h
      subst h
      rw [updateFirst, if_pos hp, List.find?_cons_of_pos _ ((hf x).trans hp)]
    · rw [List.find?_cons_of_neg _ hp] at h
      rw [updateFirst, if_neg hp, List.find?_cons_of_neg _ hp]
      exact ih h

/-- Model of the salted password hash of `src/services/auth.py`
(`pwd_context`, bcrypt): an injective tagging function stands in for the
irreversible hash, which is all the verified properties depend on. -/
def pyBcryptHash (plain : String) : String := "bcrypt$" ++ plain

/-- `AuthService.verify_password` (`src/services/auth.py` lines 26-28)
under the hash model above. -/
def verify_password (plain hashed : String) : Bool :=
  hashed == pyBcryptHash plain

/-- `AuthService.authenticate_user` (`src/services/auth.py` lines 70-83):
email lookup, password verification, and — before returning — the
`last_login_at` stamp followed by `db.commit()`.  Returns the committed
users table and the authenticated user, if any. -/
def authenticate_user (now : Int) (users : List UserRec)
    (email password : String) : List UserRec × Option UserRec :=
  match users.find? (fun u => u.email == email) with
  | none => (users, none)
  | some u =>
    if verify_password password u.hashedPassword then
      (updateFirst (fun v => v.email == email)
         (fun v => { v with lastLoginAt := some now }) users,
       some { u with lastLoginAt := some now })
    else
      (users, none)

/-- The token pair returned by a successful login (subjects of the access
and refresh JWTs). -/
structure LoginTokens where
  accessSub : String
  refreshSub : String
deriving DecidableEq, Repr

/-- `POST /login` (`login`, `src/api/auth.py` lines 129-175): authenticate
(which already commits the `last_login_at` stamp), then 401 on no match,
then 403 if the account is deactivated, else the token pair.  Returns the
final users table alongside the HTTP outcome. -/
def login (now : Int) (users : List UserRec) (email password : String) :
    List UserRec × Except ApiError LoginTokens :=
  let res := authenticate_user now users email password
  match res.2 with
  | none => (res.1, Except.error ApiError.unauthorized)
  | some u =>
    if u.isActive then
      (res.1, Except.ok { accessSub := u.email, refreshSub := u.email })
    else
      (res.1, Except.error ApiError.forbidden)

/-- C10: logging in as a deactivated user with the correct password fails
with 403 Forbidden, but the users table returned (i.e. the committed
database state) already carries the refreshed `last_login_at` stamp:
`authenticate_user` commits the stamp before the handler's `is_active`
check, so this error path does not leave the user row unchanged. -/
theorem login_inactive_stamps_last_login (now : Int) (users : List UserRec)
    (email password : String) (u : UserRec)
    (hfind : users.find? (fun v => v.email == email) = some u)
    (hpw : verify_password password u.hashedPassword = true)
    (hinactive : u.isActive = false) :
    login now users email password =
      (updateFirst (fun v => v.email == email)
         (fun v => { v with lastLoginAt := some now }) users,
       Except.error ApiError.forbidden) ∧
    (login now users email password).1.find? (fun v => v.email == email) =
      some { u with lastLoginAt := some now } := by
  have hlogin : login now users email password =
      (updateFirst (fun v => v.email == email)
         (fun v => { v with lastLoginAt := some now }) users,
       Except.error ApiError.forbidden) := by
    rw [login, authenticate_user, hfind]
    simp [hpw, hinactive]
  refine ⟨hlogin, ?_⟩
  rw [hlogin]
  exact updateFirst_find? _ _ users u hfind (fun x => rfl)

/-- The deactivated account used by the C10 witness. -/
def inactiveUser : UserRec :=
  { id := "u7", email := "gone@x.com", hashedPassword := pyBcryptHash "secret99",
    fullName := "Gone User", role := UserRole.client, isActive := false,
    isVerified := true, lastLoginAt := some 10 }

/-- C10 (witness): the concrete deactivated user logging in with the right
password gets 403 while the stored row's `last_login_at` moves from 10 to
the login time 500. -/
theorem login_inactive_stamps_last_login_witness :
    [inactiveUser].find? (fun v => v.email == ("gone@x.com" : String))
      = some inactiveUser ∧
    verify_password "secret99" inactiveUser.hashedPassword = true ∧
    inactiveUser.isActive = false ∧
    login 500 [inactiveUser] "gone@x.com" "secret99" =
      ([{ inactiveUser with lastLoginAt := some 500 }],
       Except.error ApiError.forbidden) := by
  refine ⟨rfl, by decide, rfl, ?_⟩
  exact (login_inactive_stamps_last_login 500 [inactiveUser] "gone@x.com"
    "secret99" inactiveUser rfl (by decide) rfl).1

/-- The `file` object of a LiveKit egress webhook payload
(`payload.get("file", {})`): the keys the handlers read. -/
structure FileInfo where
  location : Option String
  duration : Option Int
  size : Option Int
deriving DecidableEq, Repr

/-- A LiveKit recording webhook payload, flattened to the keys the handlers
read: `event`, `egress.egress_id`, `egress.room_name` and `file`. -/
structure EgressPayload where
  event : Option String
  egressId : Option String
  roomName : Option String
  file : Option FileInfo
deriving DecidableEq, Repr

/-- The dictionary returned by `RecordingService.handle_webhook`; absent
keys are `none`. -/
structure WebhookResult where
  status : String
  event : Option String
  egressId : Option String
  s3Bucket : Option String
  s3Key : Option String
  duration : Option Int
  size : Option Int
deriving DecidableEq, Repr

/-- Python `s.split(sep, 1)` unpacked into exactly two names
(`bucket, key = s3_path.split("/", 1)`): `none` models the `ValueError`
raised when the separator does not occur. -/
def pySplit1 (s : String) (sep : Char) : Option (String × String) :=
  match s.data.splitOn sep with
  | [] => none
  | [_] => none
  | b :: rest => some (⟨b⟩, ⟨List.intercalate [sep] rest⟩)

/-- `RecordingService.handle_webhook` (`src/services/recording.py` lines
172-207): interprets the `event` field; for `egress_ended` with an
`s3://`-prefixed `file.location` it strips the scheme and splits off the
bucket, returning bucket/key/duration/size; an exception (the unpack
`ValueError`) escapes to the API handler's catch-all and becomes a 500. -/
def handle_webhook (p : EgressPayload) : Except ApiError WebhookResult :=
  match p.event with
  | some "egress_started" =>
    Except.ok { status := "started", event := none, egressId := p.egressId,
                s3Bucket := none, s3Key := none, duration := none,
                size := none }
  | some "egress_ended" =>
    let loc := (p.file.bind (·.location)).getD ""
    if pyStartsWith loc "s3://" then
      match pySplit1 (pyReplace loc "s3://" "") '/' with
      | none => Except.error ApiError.internal
      | some (bucket, key) =>
        Except.ok { status := "completed", event := none,
                    egressId := p.egressId, s3Bucket := some bucket,
                    s3Key := some key,
                    duration := p.file.bind (·.duration),
                    size := p.file.bind (·.size) }
    else
      Except.ok { status := "completed", event := none,
                  egressId := p.egressId, s3Bucket := none, s3Key := none,
                  duration := none, size := none }
  | e =>
    Except.ok { status := "unknown", event := e, egressId := none,
                s3Bucket := none, s3Key := none, duration := none,
                size := none }

/-- The per-matched-session database update of `handle_recording_webhook`
(`src/api/webhooks.py` lines 69-121): `egress_started` marks the recording
as running, `egress_ended` marks it completed and — when the payload has a
`file` object — copies duration/size and, when the service result carries
an `s3_key`, stores it and any presigned URL obtained for it
(`presign` models `RecordingService.get_recording_url`, `none` when no URL
could be generated); `egress_failed` marks it failed. -/
def recording_webhook_effect (presign : String → Option String) (now : Int)
    (p : EgressPayload) (res : WebhookResult) (s : SessionRec) : SessionRec :=
  match p.event with
  | some "egress_started" =>
    { s with recordingStatus := some "recording",
             recordingStartedAt := some now,
             recordingEgressId := p.egressId }
  | some "egress_ended" =>
    let s₁ := { s with recordingStatus := some "completed",
                       recordingCompletedAt := some now }
    match p.file with
    | none => s₁
    | some fi =>
      let s₂ := { s₁ with recordingDurationSeconds := fi.duration,
                          recordingSizeBytes := fi.size }
      match res.s3Key with
      | none => s₂
      | some k =>
        let s₃ := { s₂ with recordingS3Key := some k }
        match presign k with
        | some u => { s₃ with recordingUrl := some u }
        | none => s₃
  | some "egress_failed" => { s with recordingStatus := some "failed" }
  | _ => s

/-- `POST /livekit/recording` (`handle_recording_webhook`,
`src/api/webhooks.py` lines 36-133) over the sessions table: runs the
service interpretation, looks the session up by the payload's room name,
applies the per-session update to the first match (no match is only
logged), and returns the result; the best-effort processor notification is
an external effect, dropped here. -/
def handle_recording_webhook (presign : String → Option String) (now : Int)
    (p : EgressPayload) (db : List SessionRec) :
    Except ApiError (List SessionRec × WebhookResult) :=
  match handle_webhook p with
  | Except.error e => Except.error e
  | Except.ok res =>
    match p.roomName with
    | none => Except.ok (db, res)
    | some rn =>
      match db.find? (fun s => s.roomName == some rn) with
      | none => Except.ok (db, res)
      | some _ =>
        Except.ok (updateFirst (fun s => s.roomName == some rn)
          (recording_webhook_effect presign now p res) db, res)

/-- The `egress_ended` payload of the claim: `file.location` is the S3 URI
`s3://bucket/some/key.mp4`, with duration 120 and size 9876, for room
`rn`. -/
def egressEndedPayload (rn : String) : EgressPayload :=
  { event := some "egress_ended", egressId := some "eg1",
    roomName := some rn,
    file := some { location := some "s3://bucket/some/key.mp4",
                   duration := some 120, size := some 9876 } }

/-- What `handle_webhook` returns for `egressEndedPayload`: bucket `bucket`,
key `some/key.mp4`, and the payload's duration and size. -/
def egressEndedRes : WebhookResult :=
  { status := "completed", event := none, egressId := some "eg1",
    s3Bucket := some "bucket", s3Key := some "some/key.mp4",
    duration := some 120, size := some 9876 }

/-- C5: for the `egress_ended` webhook whose `file.location` is
`s3://bucket/some/key.mp4`: (i) the service parse yields the key
`some/key.mp4` (scheme stripped, bucket split off); (ii) when a session
matches the room name, the webhook updates that first matching row, and the
update sets `recording_s3_key = some/key.mp4`,
`recording_status = "completed"` and copies duration/size from the payload;
(iii) when no session matches the room name, the handler raises no error
and returns the table unchanged. -/
theorem recording_webhook_egress_ended :
    (∀ rn, handle_webhook (egressEndedPayload rn) = Except.ok egressEndedRes) ∧
    (∀ presign now rn db s,
      db.find? (fun t => t.roomName == some rn) = some s →
      handle_recording_webhook presign now (egressEndedPayload rn) db =
        Except.ok (updateFirst (fun t => t.roomName == some rn)
          (recording_webhook_effect presign now (egressEndedPayload rn)
            egressEndedRes) db, egressEndedRes)) ∧
    (∀ presign now rn (t : SessionRec),
      (recording_webhook_effect presign now (egressEndedPayload rn)
          egressEndedRes t).recordingS3Key = some "some/key.mp4" ∧
      (recording_webhook_effect presign now (egressEndedPayload rn)
          egressEndedRes t).recordingStatus = some "completed" ∧
      (recording_webhook_effect presign now (egressEndedPayload rn)
          egressEndedRes t).recordingDurationSeconds = some 120 ∧
      (recording_webhook_effect presign now (egressEndedPayload rn)
          egressEndedRes t).recordingSizeBytes = some 9876) ∧
    (∀ presign now rn db,
      db.find? (fun t => t.roomName == some rn) = none →
      handle_recording_webhook presign now (egressEndedPayload rn) db =
        Except.ok (db, egressEndedRes)) := by
  refine ⟨fun rn => rfl, ?_, ?_, ?_⟩
  · intro presign now rn db s h
    unfold handle_recording_webhook
    rw [show handle_webhook (egressEndedPayload rn) = Except.ok egressEndedRes
          from rfl]
    simp only [egressEndedPayload]
    rw [h]
  · intro presign now rn t
    cases hp : presign "some/key.mp4" <;>
      simp [recording_webhook_effect, egressEndedPayload, egressEndedRes, hp]
  · intro presign now rn db h
    unfold handle_recording_webhook
    rw [show handle_webhook (egressEndedPayload rn) = Except.ok egressEndedRes
          from rfl]
    simp only [egressEndedPayload]
    rw [h]

/-- C5 (witness): with the one-session table `[baseSession]` (room
`room1`): the matching webhook updates the row, and a webhook for room
`ghost` leaves the table unchanged without error. -/
theorem recording_webhook_egress_ended_witness :
    handle_webhook (egressEndedPayload "room1") = Except.ok egressEndedRes ∧
    ([baseSession].find?
        (fun t => t.roomName == some ("room1" : String)) = some baseSession ∧
      handle_recording_webhook (fun _ => none) 7 (egressEndedPayload "room1")
          [baseSession] =
        Except.ok (updateFirst
          (fun t => t.roomName == some ("room1" : String))
          (recording_webhook_effect (fun _ => none) 7
            (egressEndedPayload "room1") egressEndedRes) [baseSession],
          egressEndedRes)) ∧
    ((recording_webhook_effect (fun _ => none) 7 (egressEndedPayload "room1")
        egressEndedRes baseSession).recordingS3Key = some "some/key.mp4") ∧
    ([baseSession].find?
        (fun t => t.roomName == some ("ghost" : String)) = none ∧
      handle_recording_webhook (fun _ => none) 7 (egressEndedPayload "ghost")
          [baseSession] = Except.ok ([baseSession], egressEndedRes)) := by
  have h := recording_webhook_egress_ended
  exact ⟨h.1 "room1",
         ⟨rfl, h.2.1 (fun _ => none) 7 "room1" [baseSession] baseSession rfl⟩,
         (h.2.2.1 (fun _ => none) 7 "room1" baseSession).1,
         ⟨rfl, h.2.2.2 (fun _ => none) 7 "ghost" [baseSession] rfl⟩⟩

/-- A Python `datetime`'s calendar-date part (`datetime` guarantees
`1 ≤ year ≤ 9999`). -/
structure PyDate where
  year : Nat
  month : Nat
  day : Nat
deriving DecidableEq, Repr

/-- `session_date.strftime("%Y-%m-%d")`: four zero-padded year digits, two
month digits, two day digits, dash-separated (exact for every valid Python
`datetime`, whose year is below 10000). -/
def strftimeYmd (d : PyDate) : String :=
  ⟨[Nat.digitChar (d.year / 1000 % 10), Nat.digitChar (d.year / 100 % 10),
    Nat.digitChar (d.year / 10 % 10), Nat.digitChar (d.year % 10), '-',
    Nat.digitChar (d.month / 10 % 10), Nat.digitChar (d.month % 10), '-',
    Nat.digitChar (d.day / 10 % 10), Nat.digitChar (d.day % 10)]⟩

/-- The split position of Python `os.path.splitext` for a plain filename
(no path separator): the last `'.'` that has some non-dot character before
it; `none` when there is no extension. -/
def pySplitextPos (cs : List Char) : Option Nat :=
  ((List.range cs.length).filter (fun i =>
      cs.getD i ' ' == '.' && (cs.take i).any (fun c => c != '.'))).getLast?

/-- Python `os.path.splitext(filename)` for a plain filename: root and
extension, with `root ++ ext = filename`. -/
def pySplitext (f : String) : String × String :=
  match pySplitextPos f.data with
  | some i => (⟨f.data.take i⟩, ⟨f.data.drop i⟩)
  | none => (f, "")

/-- `S3Service.generate_session_key` (`src/services/s3.py` lines 32-40):
`recordings/{coach_id}/{client_id}/{date}/{stem}_{unique_id}{ext}`, where
`unique_id` stands for the randomness `str(uuid.uuid4())[:8]` (eight
hexadecimal characters). -/
def generate_session_key (coachId clientId : String) (d : PyDate)
    (filename uniqueId : String) : String :=
  "recordings/" ++ coachId ++ "/" ++ clientId ++ "/" ++ strftimeYmd d ++ "/" ++
    (pySplitext filename).1 ++ "_" ++ uniqueId ++ (pySplitext filename).2

/-- One parsed entry of `S3Service.list_session_recordings`
(`src/services/s3.py` lines 155-182): the metadata recovered from a key. -/
structure ParsedRecording where
  s3Key : String
  coachId : String
  clientId : String
  date : String
  filename : String
deriving DecidableEq, Repr

/-- The per-key parsing of `list_session_recordings`: split the key on `/`,
require at least four components with the first equal to `recordings`, and
read coach id, client id, date and (first) filename component. -/
def parseRecordingKey (key : String) : Option ParsedRecording :=
  match (key.data.splitOn '/').map (fun l => (⟨l⟩ : String)) with
  | p₀ :: c :: cl :: d :: rest =>
    if p₀ = "recordings" then
      some { s3Key := key, coachId := c, clientId := cl, date := d,
             filename := rest.headD "" }
    else none
  | _ => none

/-- Everything of the generated key before the random disambiguator. -/
def sessionKeyPrefix (coachId clientId : String) (d : PyDate)
    (filename : String) : String :=
  "recordings/" ++ coachId ++ "/" ++ clientId ++ "/" ++ strftimeYmd d ++ "/" ++
    (pySplitext filename).1 ++ "_"

/-- Everything of the generated key after the random disambiguator. -/
def sessionKeySuffix (filename : String) : String :=
  (pySplitext filename).2

theorem digitChar_mod_ne_slash (n : Nat) : Nat.digitChar (n % 10) ≠ '/' := by
  have hall : ∀ m < 10, Nat.digitChar m ≠ '/' := by decide
  exact hall _ (Nat.mod_lt _ (by norm_num))

theorem slash_not_mem_strftime (d : PyDate) : '/' ∉ (strftimeYmd d).data := by
  intro h
  simp only [strftimeYmd, List.mem_cons, List.not_mem_nil, or_false] at h
  rcases h with h|h|h|h|h|h|h|h|h|h <;>
    first
      | exact digitChar_mod_ne_slash _ h.symm
      | exact absurd h (by decide)

theorem pySplitext_append (f : String) :
    (pySplitext f).1.data ++ (pySplitext f).2.data = f.data := by
  unfold pySplitext
  split <;> simp [List.take_append_drop]

theorem pySplitext_no_slash (f : String) (hf : '/' ∉ f.data) :
    '/' ∉ (pySplitext f).1.data ∧ '/' ∉ (pySplitext f).2.data := by
  unfold pySplitext
  split
  · exact ⟨fun h => hf (List.take_subset _ _ h),
           fun h => hf (List.drop_subset _ _ h)⟩
  · exact ⟨hf, by simp⟩

theorem intercalate_slash_five (A B C D E : List Char) :
    List.intercalate ['/'] [A, B, C, D, E] =
      A ++ '/' :: (B ++ '/' :: (C ++ '/' :: (D ++ '/' :: E))) := by
  simp [List.intercalate, List.intersperse]

theorem generate_session_key_data (c cl : String) (d : PyDate)
    (f u : String) :
    (generate_session_key c cl d f u).data =
      List.intercalate ['/']
        ["recordings".data, c.data, cl.data, (strftimeYmd d).data,
         ((pySplitext f).1 ++ "_" ++ u ++ (pySplitext f).2).data] := by
  rw [intercalate_slash_five]
  simp [generate_session_key, String.data_append, List.append_assoc]

theorem parse_generate_session_key (c cl : String) (d : PyDate)
    (f u : String) (hc : '/' ∉ c.data) (hcl : '/' ∉ cl.data)
    (hf : '/' ∉ f.data) (hu : '/' ∉ u.data) :
    parseRecordingKey (generate_session_key c cl d f u) =
      some { s3Key := generate_session_key c cl d f u, coachId := c,
             clientId := cl, date := strftimeYmd d,
             filename := (pySplitext f).1 ++ "_" ++ u ++ (pySplitext f).2 } := by
  have hfc : '/' ∉ ((pySplitext f).1 ++ "_" ++ u ++ (pySplitext f).2).data := by
    simp only [String.data_append]
    intro h
    simp only [List.mem_append] at h
    rcases h with ((h | h) | h) | h
    · exact (pySplitext_no_slash f hf).1 h
    · exact absurd h (by decide)
    · exact hu h
    · exact (pySplitext_no_slash f hf).2 h
  have hsplit : (generate_session_key c cl d f u).data.splitOn '/' =
      ["recordings".data, c.data, cl.data, (strftimeYmd d).data,
       ((pySplitext f).1 ++ "_" ++ u ++ (pySplitext f).2).data] := by
    rw [generate_session_key_data]
    refine List.splitOn_intercalate _ '/' ?_ (by simp)
    intro l hl
    simp only [List.mem_cons, List.not_mem_nil, or_false] at hl
    rcases hl with h|h|h|h|h <;> subst h
    · decide
    · exact hc
    · exact hcl
    · exact slash_not_mem_strftime d
    · exact hfc
  unfold parseRecordingKey
  rw [hsplit]
  rfl

/-- C8: two `generate_session_key` calls with the same coach id, client id,
session date and filename (ids and filename containing no `/`, as the UUID
ids and plain filenames of the system do) produce keys that are identical
except for the random 8-hex-character disambiguator slot between the fixed
prefix and suffix; and the `list_session_recordings` parser decomposes
either key back to exactly the supplied coach id, client id, and the
supplied date's ISO rendering. -/
theorem generate_session_key_roundtrip (c cl : String) (d : PyDate)
    (f u₁ u₂ : String) (hc : '/' ∉ c.data) (hcl : '/' ∉ cl.data)
    (hf : '/' ∉ f.data) (hu₁ : '/' ∉ u₁.data) (hu₂ : '/' ∉ u₂.data) :
    generate_session_key c cl d f u₁ =
        sessionKeyPrefix c cl d f ++ u₁ ++ sessionKeySuffix f ∧
    generate_session_key c cl d f u₂ =
        sessionKeyPrefix c cl d f ++ u₂ ++ sessionKeySuffix f ∧
    (parseRecordingKey (generate_session_key c cl d f u₁)).map
        (fun p => (p.coachId, p.clientId, p.date)) =
      some (c, cl, strftimeYmd d) ∧
    (parseRecordingKey (generate_session_key c cl d f u₂)).map
        (fun p => (p.coachId, p.clientId, p.date)) =
      some (c, cl, strftimeYmd d) := by
  refine ⟨?_, ?_, ?_, ?_⟩
  · simp [generate_session_key, sessionKeyPrefix, sessionKeySuffix,
          String.append_assoc]
  · simp [generate_session_key, sessionKeyPrefix, sessionKeySuffix,
          String.append_assoc]
  · rw [parse_generate_session_key c cl d f u₁ hc hcl hf hu₁]
    rfl
  · rw [parse_generate_session_key c cl d f u₂ hc hcl hf hu₂]
    rfl

/-- C8 (witness): concrete UUID-style ids, date 2024-03-07, filename
`video.mp4`, and two different 8-hex disambiguators. -/
theorem generate_session_key_roundtrip_witness :
    ('/' ∉ ("0a1b2c3d" : String).data ∧ '/' ∉ ("9f8e7d6c" : String).data ∧
     '/' ∉ ("video.mp4" : String).data ∧ '/' ∉ ("aaaa1111" : String).data ∧
     '/' ∉ ("bbbb2222" : String).data) ∧
    generate_session_key "0a1b2c3d" "9f8e7d6c" ⟨2024, 3, 7⟩ "video.mp4"
        "aaaa1111" =
      sessionKeyPrefix "0a1b2c3d" "9f8e7d6c" ⟨2024, 3, 7⟩ "video.mp4" ++
        "aaaa1111" ++ sessionKeySuffix "video.mp4" ∧
    (parseRecordingKey (generate_session_key "0a1b2c3d" "9f8e7d6c"
        ⟨2024, 3, 7⟩ "video.mp4" "aaaa1111")).map
        (fun p => (p.coachId, p.clientId, p.date)) =
      some ("0a1b2c3d", "9f8e7d6c", strftimeYmd ⟨2024, 3, 7⟩) ∧
    (parseRecordingKey (generate_session_key "0a1b2c3d" "9f8e7d6c"
        ⟨2024, 3, 7⟩ "video.mp4" "bbbb2222")).map
        (fun p => (p.coachId, p.clientId, p.date)) =
      some ("0a1b2c3d", "9f8e7d6c", strftimeYmd ⟨2024, 3, 7⟩) := by
  have h := generate_session_key_roundtrip "0a1b2c3d" "9f8e7d6c" ⟨2024, 3, 7⟩
    "video.mp4" "aaaa1111" "bbbb2222" (by decide) (by decide) (by decide)
    (by decide) (by decide)
  exact ⟨⟨by decide, by decide, by decide, by decide, by decide⟩,
         h.1, h.2.2.1, h.2.2.2⟩
